import Mathlib

/-!
Verification of the lighthouse mesh/vertex-attribute layout and transform
subsystem: `Mesh::new` (both the `src/ECS/mesh.rs` and the
`src/core/object.rs` variant), the attribute-pointer derivation of
`Mesh::setup` / `Mesh::set_vert_attr`, and the per-frame transform of
`Pyramid::get_vert` / `Pyramid::update` in `src/main.rs`.

Machine floats (`f32`) are embedded as real numbers; `u32`/`usize`
quantities as `ℕ`.  A vertex of the concrete demo type (`[f32; 5]`:
three position components followed by two texture coordinates) is the
structure `V5`; a generic vertex (`VertexTrait::as_list`) is a
`List ℝ`.  The Rust panic that `vert[0]` raises on an empty vector is
embedded as the `none` case of an `Option` result.
-/

/-- A 3-component vector, embedding `nalgebra_glm::Vec3` over `ℝ`. -/
structure Vec3 where
  x : ℝ
  y : ℝ
  z : ℝ

/-- A 4-component vector, embedding `nalgebra_glm::Vec4` over `ℝ`.
Throughout the repository a `Vec4` used as a rotation stores the axis in
`xyz` and the angle in `w`. -/
structure Vec4 where
  x : ℝ
  y : ℝ
  z : ℝ
  w : ℝ

/-- The swizzle `rot.xyz()` used by `Pyramid::get_vert`. -/
def Vec4.xyz (r : Vec4) : Vec3 :=
  ⟨r.x, r.y, r.z⟩

/-- Componentwise vector sum. -/
def add3 (a b : Vec3) : Vec3 :=
  ⟨a.x + b.x, a.y + b.y, a.z + b.z⟩

/-- Scalar multiple of a vector. -/
def smul3 (c : ℝ) (a : Vec3) : Vec3 :=
  ⟨c * a.x, c * a.y, c * a.z⟩

/-- Euclidean dot product. -/
def dot3 (a b : Vec3) : ℝ :=
  a.x * b.x + a.y * b.y + a.z * b.z

/-- Cross product, right-handed. -/
def cross3 (a b : Vec3) : Vec3 :=
  ⟨a.y * b.z - a.z * b.y, a.z * b.x - a.x * b.z, a.x * b.y - a.y * b.x⟩

/-- Normalisation as performed by `Unit::new_normalize` inside
`nalgebra_glm::rotate_vec3`. -/
noncomputable def normalize3 (a : Vec3) : Vec3 :=
  smul3 (1 / Real.sqrt (dot3 a a)) a

/-- Embedding of `nalgebra_glm::rotate_vec3(v, angle, normal)`, which is
`Rotation3::from_axis_angle(Unit::new_normalize(normal), angle) * v`:
the right-handed axis-angle rotation, written out as the Rodrigues
formula `v·cosθ + (k×v)·sinθ + k·(k⬝v)·(1−cosθ)` for the normalised
axis `k`. -/
noncomputable def rotate_vec3 (v : Vec3) (angle : ℝ) (normal : Vec3) : Vec3 :=
  let k := normalize3 normal
  add3
    (add3 (smul3 (Real.cos angle) v) (smul3 (Real.sin angle) (cross3 k v)))
    (smul3 (dot3 k v * (1 - Real.cos angle)) k)

/-- One row of the `VERTICES` table of `src/main.rs`: a `[f32; 5]`
vertex, three position components followed by two texture coordinates. -/
structure V5 where
  c0 : ℝ
  c1 : ℝ
  c2 : ℝ
  c3 : ℝ
  c4 : ℝ

/-- The flat component list of a `[f32; 5]` vertex, as produced by
`bytemuck::cast_slice` on one row (and by `VertexTrait::as_list` for the
demo vertex type). -/
def V5.as_list (v : V5) : List ℝ :=
  [v.c0, v.c1, v.c2, v.c3, v.c4]

/-- The state of the `Pyramid` entity of `src/main.rs` that the per-frame
transform reads: its pose (`pos`, `rot`) and its mesh tuple
`([Vertex; 5], [TriIndexes; 4])`, generalised from fixed-size arrays to
lists.  The backend handles (vao/vbo/ebo) are external resources and are
not part of the data model. -/
structure Pyramid where
  pos : Vec3
  rot : Vec4
  meshVerts : List V5
  meshIndices : List (ℕ × ℕ × ℕ)

/-- The per-vertex body of the loop in `Pyramid::get_vert`: the first
three components are replaced by
`rotate_vec3(vec3(v[0], v[1], v[2]), rot.w, rot.xyz())` and the
remaining two components are copied unchanged (`split_at_mut(3)`). -/
noncomputable def transformV5 (rot : Vec4) (v : V5) : V5 :=
  let r := rotate_vec3 ⟨v.c0, v.c1, v.c2⟩ rot.w rot.xyz
  ⟨r.x, r.y, r.z, v.c3, v.c4⟩

/-- Embedding of `Pyramid::get_vert` (src/main.rs lines 163-180): every
mesh vertex is rotated by the pyramid's current rotation; the pose
position `self.pos` is not read anywhere in the function. -/
noncomputable def Pyramid.get_vert (p : Pyramid) : List V5 :=
  p.meshVerts.map (transformV5 p.rot)

/-- The state change of one `Pyramid::update` tick
(src/main.rs line 229): `rot.w += 0.01`; nothing else is mutated. -/
def Pyramid.tick (p : Pyramid) : Pyramid :=
  { p with rot := ⟨p.rot.x, p.rot.y, p.rot.z, p.rot.w + 0.01⟩ }

/-- Embedding of `Pyramid::update` (src/main.rs lines 224-242): after the
angle increment, the flat float buffer `cast_slice(&get_vert())` and the
index buffer `cast_slice(&mesh.1)` are handed to the two `buffer_data`
calls.  The result is the new state paired with the two uploaded
buffers. -/
noncomputable def Pyramid.update (p : Pyramid) : Pyramid × List ℝ × List (ℕ × ℕ × ℕ) :=
  let p2 := p.tick
  (p2, ((p2.get_vert).map V5.as_list).flatten, p2.meshIndices)

/-- The validated mesh data owned by `Mesh` in both variants: vertices
(each vertex its `as_list` component list), the attribute-size list
`vert_attr`, and the triangle index triples (field spelled `indicies`
as in the source).  The backend handles (vao/vbo/ebo) the Rust struct
also carries are external resources, not data. -/
structure MeshData where
  vertices : List (List ℝ)
  vert_attr : List ℕ
  indicies : List (ℕ × ℕ × ℕ)

/-- The error string built by `Mesh::new` in `src/ECS/mesh.rs` line 181:
`format!` interpolates the attribute sum and the first vertex's
component count into the message. -/
def ecsErrMsg (s l : ℕ) : String :=
  "The sum of the vertex attributes " ++ toString s ++
    " must be equal to the number of element in the vertex " ++ toString l

/-- The fixed error string returned by `Mesh::new` in
`src/core/object.rs` line 229; it interpolates no values. -/
def coreErrMsg : String :=
  "The sum of the vertex attributes must be equal to the number of element in the vertex"

namespace ECS

/-- Embedding of `Mesh::new` from `src/ECS/mesh.rs` lines 175-194.
`vert[0]` on an empty vector panics in Rust; that case is `none`.
Otherwise: if the first vertex's component count differs from the sum of
`vert_attr`, return the formatted error; else return the mesh holding
the three inputs.  No validation of `index` is performed. -/
def Mesh.new (vert : List (List ℝ)) (vert_attr : List ℕ)
    (index : List (ℕ × ℕ × ℕ)) : Option (Except String MeshData) :=
  match vert with
  | [] => none
  | v0 :: rest =>
    if v0.length ≠ vert_attr.sum then
      some (Except.error (ecsErrMsg vert_attr.sum v0.length))
    else
      some (Except.ok ⟨v0 :: rest, vert_attr, index⟩)

end ECS

namespace ObjectCore

/-- Embedding of `Mesh::new` from `src/core/object.rs` lines 223-246.
Identical control flow to the ECS variant, but the error is the fixed
string `coreErrMsg` that carries no values.  No validation of `index`
is performed. -/
def Mesh.new (vert : List (List ℝ)) (vert_attr : List ℕ)
    (index : List (ℕ × ℕ × ℕ)) : Option (Except String MeshData) :=
  match vert with
  | [] => none
  | v0 :: rest =>
    if v0.length ≠ vert_attr.sum then
      some (Except.error coreErrMsg)
    else
      some (Except.ok ⟨v0 :: rest, vert_attr, index⟩)

end ObjectCore

/-- The per-attribute binding parameters computed by the loop of
`Mesh::setup` (src/ECS/mesh.rs lines 202-218) and `Mesh::set_vert_attr`
(src/core/object.rs lines 271-285): for the `i`-th attribute of size
`attr`, the call `glVertexAttribPointer(i, attr, …, strideBytes,
pointer)` receives `pointer = size_of::<f32>() * vert_attr[0..i].sum()`
(with `size_of::<f32>() = 4`) and the stride `size_of::<Vertex>()`,
passed in here as `strideBytes`.  Each list entry is
`(byte offset, component count, stride)`. -/
def setupPointers (vert_attr : List ℕ) (strideBytes : ℕ) : List (ℕ × ℕ × ℕ) :=
  vert_attr.enum.map (fun ia => (4 * (vert_attr.take ia.1).sum, ia.2, strideBytes))

/-- Whether the character sequence `pat` occurs at the start of `s`. -/
def seqStarts : List Char → List Char → Bool
  | [], _ => true
  | _ :: _, [] => false
  | a :: as, b :: bs => a = b && seqStarts as bs

/-- Whether the character sequence `pat` occurs anywhere inside `s`. -/
def containsSeq (pat : List Char) : List Char → Bool
  | [] => seqStarts pat []
  | c :: rest => seqStarts pat (c :: rest) || containsSeq pat rest

/-- Whether the decimal representation of `n` occurs in the message
`msg`: the observable sense in which an error message identifies a
numeric value. -/
def msgMentions (msg : String) (n : ℕ) : Bool :=
  containsSeq (toString n).toList msg.toList

/-- Rotation by angle `0` is the identity, whatever the axis: in the
Rodrigues form the sine and `1 - cos` terms vanish and the cosine factor
is `1`. -/
lemma rotate_vec3_angle_zero (v a : Vec3) : rotate_vec3 v 0 a = v := by
  cases v
  simp [rotate_vec3, normalize3, add3, smul3, dot3, cross3, Real.cos_zero, Real.sin_zero]

/-- A vertex is unchanged by `transformV5` when the rotation angle
(`rot.w`) is `0`, for any axis. -/
lemma transformV5_angle_zero (ax ay az : ℝ) (v : V5) :
    transformV5 ⟨ax, ay, az, 0⟩ v = v := by
  cases v
  simp [transformV5, Vec4.xyz, rotate_vec3_angle_zero]

/-- Function form of `transformV5_angle_zero`, for rewriting under
`List.map`. -/
lemma transformV5_angle_zero_fun (ax ay az : ℝ) :
    transformV5 ⟨ax, ay, az, 0⟩ = id :=
  funext (transformV5_angle_zero ax ay az)

/-- Rotating `(1,0,0)` by `π/2` about the axis `(0,1,0)` yields
`(0,0,-1)` under the right-handed convention of
`nalgebra_glm::rotate_vec3`. -/
lemma rotate_vec3_quarter_turn_y :
    rotate_vec3 ⟨1, 0, 0⟩ (Real.pi / 2) ⟨0, 1, 0⟩ = ⟨0, 0, -1⟩ := by
  simp [rotate_vec3, normalize3, add3, smul3, dot3, cross3,
    Real.cos_pi_div_two, Real.sin_pi_div_two]

/-- C5: applying the per-frame transform (`Pyramid::get_vert`) with the
zero pose — position `(0,0,0)` and rotation angle `0`, any axis —
reproduces the original flat vertex buffer exactly: the transform is the
identity. -/
theorem zero_pose_reproduces_buffer (ax ay az : ℝ) (verts : List V5)
    (idx : List (ℕ × ℕ × ℕ)) :
    ((Pyramid.get_vert ⟨⟨0, 0, 0⟩, ⟨ax, ay, az, 0⟩, verts, idx⟩).map V5.as_list).flatten
      = (verts.map V5.as_list).flatten := by
  simp [Pyramid.get_vert, transformV5_angle_zero_fun]

/-- C3, counterexample: with rotation angle `0` and pose position
`(1,0,0)`, the transformed x-components are NOT the base x-components
plus `1` — they equal the base x-components, because `Pyramid::get_vert`
never reads the pose position.  Concretely, the base vertex
`(0.5, -0.5, 0.5, 1, 0)` keeps `x = 0.5` instead of becoming `1.5`. -/
theorem translation_claim_counterexample :
    (Pyramid.get_vert ⟨⟨1, 0, 0⟩, ⟨0, 1, 0, 0⟩, [⟨1/2, -1/2, 1/2, 1, 0⟩], [(0, 1, 4)]⟩).map V5.c0
        ≠ [1/2 + 1] ∧
    (Pyramid.get_vert ⟨⟨1, 0, 0⟩, ⟨0, 1, 0, 0⟩, [⟨1/2, -1/2, 1/2, 1, 0⟩], [(0, 1, 4)]⟩).map V5.c0
        = [1/2] := by
  constructor
  · simp only [Pyramid.get_vert, transformV5_angle_zero_fun, List.map_id, List.map_cons,
      List.map_nil, ne_eq, List.cons.injEq, and_true]
    norm_num
  · simp [Pyramid.get_vert, transformV5_angle_zero_fun]

/-- C3, amended: applying the per-frame transform with rotation angle
`0` leaves every vertex completely unchanged — x position components
included — whatever the pose position is: `Pyramid::get_vert` applies
only the rotation and ignores the pose position (no translation step
exists), so with position `(1,0,0)` the x-components are unchanged
rather than incremented, and all non-position components are likewise
unchanged. -/
theorem angle_zero_ignores_position (px py pz ax ay az : ℝ) (verts : List V5)
    (idx : List (ℕ × ℕ × ℕ)) :
    Pyramid.get_vert ⟨⟨px, py, pz⟩, ⟨ax, ay, az, 0⟩, verts, idx⟩ = verts ∧
    (Pyramid.get_vert ⟨⟨px, py, pz⟩, ⟨ax, ay, az, 0⟩, verts, idx⟩).map V5.c0
      = verts.map V5.c0 := by
  constructor
  · simp [Pyramid.get_vert, transformV5_angle_zero_fun]
  · simp [Pyramid.get_vert, transformV5_angle_zero_fun]

/-- C9: in the per-frame transform, rotating a vertex whose position is
`(1,0,0)` by `π/2` (90 degrees) about the axis `(0,1,0)` yields position
`(0,0,-1)` — the right-handed convention fixed by
`nalgebra_glm::rotate_vec3` — exactly, hence within tolerance `1e-5`;
the remaining components are untouched. -/
theorem quarter_turn_about_y (px py pz u v : ℝ) (idx : List (ℕ × ℕ × ℕ)) :
    Pyramid.get_vert ⟨⟨px, py, pz⟩, ⟨0, 1, 0, Real.pi / 2⟩, [⟨1, 0, 0, u, v⟩], idx⟩
        = [⟨0, 0, -1, u, v⟩] ∧
    |(rotate_vec3 ⟨1, 0, 0⟩ (Real.pi / 2) ⟨0, 1, 0⟩).x - 0| ≤ 1 / 100000 ∧
    |(rotate_vec3 ⟨1, 0, 0⟩ (Real.pi / 2) ⟨0, 1, 0⟩).y - 0| ≤ 1 / 100000 ∧
    |(rotate_vec3 ⟨1, 0, 0⟩ (Real.pi / 2) ⟨0, 1, 0⟩).z - (-1)| ≤ 1 / 100000 := by
  refine ⟨?_, ?_, ?_, ?_⟩
  · simp [Pyramid.get_vert, transformV5, Vec4.xyz, rotate_vec3_quarter_turn_y]
  · rw [rotate_vec3_quarter_turn_y]
    norm_num
  · rw [rotate_vec3_quarter_turn_y]
    norm_num
  · rw [rotate_vec3_quarter_turn_y]
    norm_num

/-- The flat buffer obtained by transforming and then flattening a list
of `[f32; 5]` vertices has five floats per vertex. -/
lemma flat_buffer_length (rot : Vec4) (l : List V5) :
    (((l.map (transformV5 rot)).map V5.as_list).flatten).length = l.length * 5 := by
  induction l with
  | nil => simp
  | cons v t ih =>
    simp only [List.map_cons, List.flatten_cons, List.length_append, ih, V5.as_list,
      List.length_cons, List.length_nil]
    omega

/-- C6: for every mesh and every pose, the flat vertex buffer produced by
`Pyramid::update` has length exactly `vertex_count * 5` (five components
per vertex), and the index buffer handed to the backend is identical to
the mesh's stored input indices — the indices are never transformed. -/
theorem update_output_shape (p : Pyramid) :
    ((p.update).2.1).length = p.meshVerts.length * 5 ∧
    (p.update).2.2 = p.meshIndices := by
  constructor
  · simp only [Pyramid.update, Pyramid.get_vert, Pyramid.tick]
    exact flat_buffer_length _ _
  · simp [Pyramid.update, Pyramid.tick]

/-- Iterating the per-tick state change accumulates the angle linearly
and leaves everything else — pose position, rotation axis, base
vertices, indices — untouched. -/
lemma tick_iterate (p : Pyramid) (n : ℕ) :
    Pyramid.tick^[n] p
      = ⟨p.pos, ⟨p.rot.x, p.rot.y, p.rot.z, p.rot.w + 0.01 * n⟩,
          p.meshVerts, p.meshIndices⟩ := by
  induction n with
  | zero => simp
  | succ n ih =>
    rw [Function.iterate_succ_apply', ih]
    simp only [Pyramid.tick]
    have h : p.rot.w + 0.01 * (n : ℝ) + 0.01 = p.rot.w + 0.01 * ((n : ℕ) + 1 : ℕ) := by
      push_cast
      ring
    simp [h]

/-- C7: on every `Pyramid::update` tick the rotation angle `rot.w` grows
by exactly `0.01`, so after `n` ticks it equals the initial angle plus
`0.01 * n`; the rotation axis, the stored base vertex list and the index
list are exactly the ones supplied at construction; and the buffer
uploaded on the next tick is recomputed from scratch by applying the
accumulated rotation to the original base vertices. -/
theorem angle_accumulates_across_ticks (p : Pyramid) (n : ℕ) :
    (Pyramid.tick^[n] p).rot.w = p.rot.w + 0.01 * n ∧
    (Pyramid.tick^[n] p).rot.xyz = p.rot.xyz ∧
    (Pyramid.tick^[n] p).meshVerts = p.meshVerts ∧
    (Pyramid.tick^[n] p).meshIndices = p.meshIndices ∧
    ((Pyramid.tick^[n] p).update).2.1
      = ((p.meshVerts.map
            (transformV5 ⟨p.rot.x, p.rot.y, p.rot.z,
              p.rot.w + 0.01 * ((n : ℝ) + 1)⟩)).map V5.as_list).flatten := by
  rw [tick_iterate]
  refine ⟨by simp, by simp [Vec4.xyz], by simp, by simp, ?_⟩
  simp only [Pyramid.update, Pyramid.get_vert, Pyramid.tick]
  have h : p.rot.w + 0.01 * (n : ℝ) + 0.01 = p.rot.w + 0.01 * ((n : ℝ) + 1) := by
    ring
  simp [h]

/-- C1, amended: whenever the attribute-layout sum differs from the first
vertex's component count, both `Mesh::new` variants return an error
rather than a mesh; the ECS variant's error message interpolates the
expected sum and the actual component count, while the `core/object.rs`
variant returns the fixed message `coreErrMsg`, which carries neither
value. -/
theorem attribute_sum_mismatch_errors (v0 : List ℝ) (rest : List (List ℝ))
    (vert_attr : List ℕ) (index : List (ℕ × ℕ × ℕ))
    (h : v0.length ≠ vert_attr.sum) :
    ECS.Mesh.new (v0 :: rest) vert_attr index
        = some (Except.error (ecsErrMsg vert_attr.sum v0.length)) ∧
    ObjectCore.Mesh.new (v0 :: rest) vert_attr index
        = some (Except.error coreErrMsg) := by
  constructor
  · simp [ECS.Mesh.new, h]
  · simp [ObjectCore.Mesh.new, h]

/-- Closed instance of `attribute_sum_mismatch_errors`: a 5-component
vertex with layout `[3, 1]` (sum `4`) is rejected by both variants. -/
theorem attribute_sum_mismatch_errors_witness :
    (([1, 2, 3, 4, 5] : List ℝ).length ≠ ([3, 1] : List ℕ).sum) ∧
    (ECS.Mesh.new [[1, 2, 3, 4, 5]] [3, 1] []
        = some (Except.error (ecsErrMsg ([3, 1] : List ℕ).sum
            ([1, 2, 3, 4, 5] : List ℝ).length)) ∧
     ObjectCore.Mesh.new [[1, 2, 3, 4, 5]] [3, 1] []
        = some (Except.error coreErrMsg)) :=
  ⟨by decide, attribute_sum_mismatch_errors _ _ _ _ (by decide)⟩

/-- C1, counterexample to the claim as stated: the `core/object.rs`
variant of `Mesh::new` rejects a 5-component vertex with layout `[3, 1]`
(expected sum `4`, actual count `5`), but its error message mentions
neither `4` nor `5`; the same fixed message is returned for the entirely
different mismatch of a 3-component vertex with layout `[1, 1]`, so the
error does not identify the offending values. -/
theorem mismatch_error_lacks_values :
    ObjectCore.Mesh.new [[1, 2, 3, 4, 5]] [3, 1] []
        = some (Except.error coreErrMsg) ∧
    msgMentions coreErrMsg 4 = false ∧
    msgMentions coreErrMsg 5 = false ∧
    ObjectCore.Mesh.new [[1, 2, 3]] [1, 1] []
        = some (Except.error coreErrMsg) :=
  ⟨rfl, by decide, by decide, rfl⟩

/-- C2, counterexample to the claim as stated: with five vertices, the
triangle triple `(0, 1, 5)` contains the out-of-range index `5`, yet
both `Mesh::new` variants return `Ok` — no `IndexOutOfRange` (or any
other) error is produced. -/
theorem index_out_of_range_counterexample :
    ECS.Mesh.new
        [[1, 2, 3, 4, 5], [1, 2, 3, 4, 5], [1, 2, 3, 4, 5], [1, 2, 3, 4, 5], [1, 2, 3, 4, 5]]
        [3, 2] [(0, 1, 5)]
      = some (Except.ok
          ⟨[[1, 2, 3, 4, 5], [1, 2, 3, 4, 5], [1, 2, 3, 4, 5], [1, 2, 3, 4, 5], [1, 2, 3, 4, 5]],
            [3, 2], [(0, 1, 5)]⟩) ∧
    ObjectCore.Mesh.new
        [[1, 2, 3, 4, 5], [1, 2, 3, 4, 5], [1, 2, 3, 4, 5], [1, 2, 3, 4, 5], [1, 2, 3, 4, 5]]
        [3, 2] [(0, 1, 5)]
      = some (Except.ok
          ⟨[[1, 2, 3, 4, 5], [1, 2, 3, 4, 5], [1, 2, 3, 4, 5], [1, 2, 3, 4, 5], [1, 2, 3, 4, 5]],
            [3, 2], [(0, 1, 5)]⟩) :=
  ⟨rfl, rfl⟩

/-- C2, amended: `Mesh::new` performs no index validation at all.  Even
when some triangle triple contains an index at or beyond the vertex
count, both variants return `Ok` holding the inputs unchanged, provided
only that the attribute-sum check passes. -/
theorem index_out_of_range_accepted (v0 : List ℝ) (rest : List (List ℝ))
    (vert_attr : List ℕ) (index : List (ℕ × ℕ × ℕ)) (t : ℕ × ℕ × ℕ)
    (_hmem : t ∈ index) (_hoob : (v0 :: rest).length ≤ t.2.2)
    (hsum : v0.length = vert_attr.sum) :
    ECS.Mesh.new (v0 :: rest) vert_attr index
        = some (Except.ok ⟨v0 :: rest, vert_attr, index⟩) ∧
    ObjectCore.Mesh.new (v0 :: rest) vert_attr index
        = some (Except.ok ⟨v0 :: rest, vert_attr, index⟩) := by
  constructor
  · simp [ECS.Mesh.new, hsum]
  · simp [ObjectCore.Mesh.new, hsum]

/-- Closed instance of `index_out_of_range_accepted`: two 5-component
vertices, layout `[3, 2]`, and a triangle triple whose third index `7`
is far beyond the vertex count `2`; construction still succeeds. -/
theorem index_out_of_range_accepted_witness :
    ((0, 1, 7) ∈ [((0 : ℕ), (1 : ℕ), (7 : ℕ))] ∧
     ([[1, 2, 3, 4, 5], [1, 2, 3, 4, 5]] : List (List ℝ)).length ≤ 7 ∧
     ([1, 2, 3, 4, 5] : List ℝ).length = ([3, 2] : List ℕ).sum) ∧
    (ECS.Mesh.new [[1, 2, 3, 4, 5], [1, 2, 3, 4, 5]] [3, 2] [(0, 1, 7)]
        = some (Except.ok ⟨[[1, 2, 3, 4, 5], [1, 2, 3, 4, 5]], [3, 2], [(0, 1, 7)]⟩) ∧
     ObjectCore.Mesh.new [[1, 2, 3, 4, 5], [1, 2, 3, 4, 5]] [3, 2] [(0, 1, 7)]
        = some (Except.ok ⟨[[1, 2, 3, 4, 5], [1, 2, 3, 4, 5]], [3, 2], [(0, 1, 7)]⟩)) :=
  ⟨⟨by decide, by decide, by decide⟩,
    index_out_of_range_accepted _ _ _ _ (0, 1, 7) (by decide) (by decide) (by decide)⟩

/-- C8: the attribute-sum invariant is validated only against the first
vertex.  Whenever the first vertex's component count equals the sum of
the attribute layout, both `Mesh::new` variants return `Ok`, whatever
the component counts of the remaining vertices are. -/
theorem first_vertex_only_validation (v0 : List ℝ) (rest : List (List ℝ))
    (vert_attr : List ℕ) (index : List (ℕ × ℕ × ℕ))
    (hsum : v0.length = vert_attr.sum) :
    ECS.Mesh.new (v0 :: rest) vert_attr index
        = some (Except.ok ⟨v0 :: rest, vert_attr, index⟩) ∧
    ObjectCore.Mesh.new (v0 :: rest) vert_attr index
        = some (Except.ok ⟨v0 :: rest, vert_attr, index⟩) := by
  constructor
  · simp [ECS.Mesh.new, hsum]
  · simp [ObjectCore.Mesh.new, hsum]

/-- Closed instance of `first_vertex_only_validation`: the first vertex
has the 5 components that layout `[3, 2]` requires, while the second
vertex has only one component; construction nevertheless succeeds in
both variants. -/
theorem first_vertex_only_validation_witness :
    (([1, 2, 3, 4, 5] : List ℝ).length = ([3, 2] : List ℕ).sum) ∧
    (ECS.Mesh.new [[1, 2, 3, 4, 5], [9]] [3, 2] [(0, 0, 0)]
        = some (Except.ok ⟨[[1, 2, 3, 4, 5], [9]], [3, 2], [(0, 0, 0)]⟩) ∧
     ObjectCore.Mesh.new [[1, 2, 3, 4, 5], [9]] [3, 2] [(0, 0, 0)]
        = some (Except.ok ⟨[[1, 2, 3, 4, 5], [9]], [3, 2], [(0, 0, 0)]⟩)) :=
  ⟨by decide, first_vertex_only_validation _ _ _ _ (by decide)⟩

/-- C10: called with an empty vertex list, both `Mesh::new` variants hit
the unguarded `vert[0]` and panic (embedded as `none`) instead of
returning an error value; with any non-empty vertex list — the spec's
precondition — the panicking branch is unreachable and a `Result` value
is always produced. -/
theorem empty_vertices_panics :
    (∀ (vert_attr : List ℕ) (index : List (ℕ × ℕ × ℕ)),
        ECS.Mesh.new [] vert_attr index = none ∧
        ObjectCore.Mesh.new [] vert_attr index = none) ∧
    (∀ (v0 : List ℝ) (rest : List (List ℝ)) (vert_attr : List ℕ)
        (index : List (ℕ × ℕ × ℕ)),
        (ECS.Mesh.new (v0 :: rest) vert_attr index).isSome = true ∧
        (ObjectCore.Mesh.new (v0 :: rest) vert_attr index).isSome = true) := by
  constructor
  · intro vert_attr index
    exact ⟨rfl, rfl⟩
  · intro v0 rest vert_attr index
    constructor
    · simp only [ECS.Mesh.new]
      split <;> rfl
    · simp only [ObjectCore.Mesh.new]
      split <;> rfl

/-- C4: the derived binding parameters of attribute `i` are
`(byte offset, component count, stride)` with byte offset
`4 * sum(vert_attr[0..i])` (4 being `size_of::<f32>()`); the stride
passed for every attribute is `size_of::<Vertex>()`, which — because the
repository's vertex types are plain float tuples whose component count
`Mesh::new` forces to equal `vert_attr.sum` — equals `4 * vert_attr.sum`.
In particular layout `[3, 2]` with the 20-byte demo vertex yields
offsets `(0, 3)` and `(12, 2)` with stride `20`. -/
theorem setup_offsets_and_stride (vert_attr : List ℕ) (strideBytes i : ℕ)
    (hstride : strideBytes = 4 * vert_attr.sum) :
    (setupPointers vert_attr strideBytes)[i]?
        = vert_attr[i]?.map
            (fun a => (4 * (vert_attr.take i).sum, a, 4 * vert_attr.sum)) ∧
    setupPointers [3, 2] 20 = [(0, 3, 20), (12, 2, 20)] := by
  subst hstride
  constructor
  · rw [setupPointers, List.getElem?_map, List.getElem?_enum]
    cases vert_attr[i]? <;> simp
  · rfl

/-- Closed instance of `setup_offsets_and_stride` at layout `[3, 2]`,
stride `20 = 4 * 5`, attribute index `1`: the second attribute sits at
byte offset `12` with 2 components and stride `20`. -/
theorem setup_offsets_and_stride_witness :
    ((20 : ℕ) = 4 * ([3, 2] : List ℕ).sum) ∧
    ((setupPointers [3, 2] 20)[1]?
        = ([3, 2] : List ℕ)[1]?.map
            (fun a => (4 * (([3, 2] : List ℕ).take 1).sum, a, 4 * ([3, 2] : List ℕ).sum)) ∧
     setupPointers [3, 2] 20 = [(0, 3, 20), (12, 2, 20)]) :=
  ⟨by decide, setup_offsets_and_stride [3, 2] 20 1 (by decide)⟩
